import Mathlib

/-!
# Verification of the xodo-linker request pipeline (src/linker.rs)

Shallow embedding of the security gate (`SecurityConfig`), the path
resolver (`SystemConfig.get_absolute_pdf_path` / `SystemConfig.run`),
the response builder (`ServerConfig.handle_request`), the per-request
orchestration (`Linker.handle_request`) and the configuration loader
(`Linker.read_config`).

Conventions of the embedding:
* OS strings and filesystem paths are Lean `String`s (sequences of
  characters; the UTF-8 byte-level view of Rust `str` is not modelled).
* Compiled `regex::Regex` values are modelled extensionally as their
  matching function on strings (`Regex.isMatch`), since only `is_match`
  is ever called on them.
* Filesystem and process effects (`dirs::home_dir`, `std::fs::canonicalize`,
  `open_file_with_dialog`'s process exit) are an explicit environment
  record `FsEnv` passed to the functions that perform them.
* A Rust panic (the `assert_eq!` inside `SystemConfig::run`) is an
  explicit constructor of the result type, since it escapes the normal
  `Result` control flow.
-/

namespace XodoLinker

/-- Model of a compiled `regex::Regex`: only its matching behaviour on
strings is observable in the program (`Regex::is_match`). -/
structure Regex where
  isMatch : String → Bool

/-- The `security:` section of the configuration (linker.rs lines 52-59). -/
structure SecurityConfig where
  force_loopback : Bool
  blacklist : List Regex
  whitelist : List Regex

/-- The `server:` section of the configuration (linker.rs lines 34-40). -/
structure ServerConfig where
  port : Nat
  addr : String
  close_tab : Bool

/-- The `system:` section of the configuration (linker.rs lines 19-23). -/
structure SystemConfig where
  hostname : String
  base_path : String

/-- Top-level configuration (linker.rs lines 12-17). -/
structure Linker where
  security : SecurityConfig
  server : ServerConfig
  system : SystemConfig

/-- The remote socket address of a request, reduced to the only thing the
program observes about it: `addr.ip().is_loopback()`. -/
structure RemoteAddr where
  isLoopback : Bool

/-- An inbound `tiny_http::Request`, reduced to the two observations the
program makes: `request.remote_addr()` (which `tiny_http` exposes as an
`Option`) and `request.url()`. -/
structure Request where
  remote_addr : Option RemoteAddr
  url : String

/-- Substring containment on strings, used to model matching of the two
default regex patterns `/favicon\.ico` and `.*\.pdf`: both are unanchored,
so `is_match` holds exactly when the literal (resp. a `.pdf`-terminated
segment, which reduces to containing ".pdf") occurs inside the path. -/
def containsSubstr (s sub : String) : Bool :=
  s.toList.tails.any (fun t => sub.toList.isPrefixOf t)

/-- Embeds `impl Default for SecurityConfig` (linker.rs lines 61-71):
`force_loopback = true`, blacklist `[/favicon\.ico]`, whitelist `[.*\.pdf]`.
The two hard-coded patterns are modelled by their matching functions. -/
def SecurityConfig.default : SecurityConfig where
  force_loopback := true
  blacklist := [⟨fun s => containsSubstr s "/favicon.ico"⟩]
  whitelist := [⟨fun s => containsSubstr s ".pdf"⟩]

/-- Embeds `impl Default for ServerConfig` (linker.rs lines 42-50). -/
def ServerConfig.default : ServerConfig where
  port := 80
  addr := "0.0.0.0"
  close_tab := true

/-- Embeds `impl Default for SystemConfig` (linker.rs lines 25-32). -/
def SystemConfig.default : SystemConfig where
  hostname := "xodo"
  base_path := "{{home_dir}}\\OneDrive\\ONEDRI~1"

/-- Field-wise defaults of the derived `Default` impl for `Linker`. -/
def Linker.default : Linker where
  security := SecurityConfig.default
  server := ServerConfig.default
  system := SystemConfig.default

/-- Embeds `SecurityConfig::matches_list` (linker.rs lines 149-151):
`list.iter().fold(false, |acc, r| r.is_match(path) || acc)`. -/
def SecurityConfig.matches_list (list : List Regex) (path : String) : Bool :=
  list.foldl (fun acc r => r.isMatch path || acc) false

/-- Embeds `SecurityConfig::matches_blacklist` (linker.rs lines 143-145). -/
def SecurityConfig.matches_blacklist (cfg : SecurityConfig) (path : String) : Bool :=
  SecurityConfig.matches_list cfg.blacklist path

/-- Embeds `SecurityConfig::matches_whitelist` (linker.rs lines 146-148). -/
def SecurityConfig.matches_whitelist (cfg : SecurityConfig) (path : String) : Bool :=
  SecurityConfig.matches_list cfg.whitelist path

/-- Embeds `SecurityConfig::allow_force_loopback` (linker.rs lines 160-169):
when `force_loopback` is set, `remote_addr().and_then(|addr|
Some(addr.ip().is_loopback())).unwrap_or(false)`; otherwise `true`. -/
def SecurityConfig.allow_force_loopback (cfg : SecurityConfig) (request : Request) : Bool :=
  if cfg.force_loopback then
    (request.remote_addr.bind (fun addr => some addr.isLoopback)).getD false
  else
    true

/-- Embeds `SecurityConfig::allow_black_and_white_list` (linker.rs lines 171-182):
a blacklist match rejects unless a whitelist match overrides it. -/
def SecurityConfig.allow_black_and_white_list (cfg : SecurityConfig) (request : Request) : Bool :=
  let url := request.url
  if cfg.matches_blacklist url then
    if cfg.matches_whitelist url then true else false
  else
    true

/-- Embeds `SecurityConfig::allow_request` (linker.rs lines 152-159): collect both
checks in a vector and require `all` of them to be `true`. -/
def SecurityConfig.allow_request (cfg : SecurityConfig) (request : Request) : Bool :=
  [cfg.allow_force_loopback request, cfg.allow_black_and_white_list request].all
    (fun b => b == true)

/-- Model of the `substring` crate's `str.substring(start, end)`: the
characters with char indices in `[start, end)`, clamped to the string. -/
def substring (s : String) (startIdx endIdx : Nat) : String :=
  ((s.toList.drop startIdx).take (endIdx - startIdx)).asString

/-- Replace the leftmost occurrence of `pat` in a char list by `rep`
(model of Rust `str::replacen(pat, rep, 1)`). -/
def listReplaceFirst (pat rep : List Char) : List Char → List Char
  | [] => []
  | c :: rest =>
    if pat.isPrefixOf (c :: rest) then rep ++ (c :: rest).drop pat.length
    else c :: listReplaceFirst pat rep rest

/-- Rust `str::replacen(pat, rep, 1)`: replace the first occurrence. -/
def replacen1 (s pat rep : String) : String :=
  (listReplaceFirst pat.toList rep.toList s.toList).asString

/-- Replace every (leftmost-first, non-overlapping) occurrence of `pat` by
`rep`, with explicit fuel bounding the recursion; fuel equal to the list
length is always enough for a non-empty pattern. -/
def listReplaceAllAux (pat rep : List Char) : Nat → List Char → List Char
  | 0, l => l
  | _ + 1, [] => []
  | fuel + 1, c :: rest =>
    if pat.isPrefixOf (c :: rest) then
      rep ++ listReplaceAllAux pat rep fuel ((c :: rest).drop pat.length)
    else
      c :: listReplaceAllAux pat rep fuel rest

/-- Rust `str::replace(pat, rep)`: replace all occurrences. -/
def strReplaceAll (s pat rep : String) : String :=
  (listReplaceAllAux pat.toList rep.toList s.toList.length s.toList).asString

/-- Rust `str::starts_with` on a string prefix argument. -/
def strStartsWith (s pre : String) : Bool :=
  pre.toList.isPrefixOf s.toList

/-- Rust `str::ends_with` on a string suffix argument. -/
def strEndsWith (s suf : String) : Bool :=
  suf.toList.isSuffixOf s.toList

/-- Separator test for Windows paths outside verbatim prefixes: both the
backslash and the forward slash separate components. -/
def isSep (c : Char) : Bool :=
  c = '\\' || c = '/'

/-- The leading chars of a list up to (excluding) the first separator. -/
def takeUntilSep : List Char → List Char
  | [] => []
  | c :: rest => if isSep c then [] else c :: takeUntilSep rest

/-- The leading chars of a list up to (excluding) the first backslash, the
only separator recognized inside verbatim prefixes. -/
def takeUntilBackslash : List Char → List Char
  | [] => []
  | c :: rest => if c = '\\' then [] else c :: takeUntilBackslash rest

/-- Length in characters of the Windows path prefix of a path, following
`std::path::Prefix` parsing: verbatim prefixes `\\?\..` (their `UNC\`
form spanning server and share, their other forms spanning the first
backslash-delimited component, which covers the `C:` disk form), device
namespaces `\\.\..`, UNC `\\server\share` pairs (a prefix only when a
separator follows the server, and excluding a trailing separator when the
share is empty), and disk prefixes `C:`; `0` when the path has no prefix.
The leading double backslash of the multi-component forms must be literal
backslashes, as in Rust, while later separators inside non-verbatim forms
may be either slash. -/
def windowsPrefixLen (l : List Char) : Nat :=
  match l with
  | '\\' :: '\\' :: '?' :: '\\' :: rest =>
    (match rest with
      | 'U' :: 'N' :: 'C' :: '\\' :: rest2 =>
        let server := takeUntilBackslash rest2
        let share := takeUntilBackslash (rest2.drop (server.length + 1))
        8 + server.length + (if 0 < share.length then 1 + share.length else 0)
      | _ => 4 + (takeUntilBackslash rest).length)
  | '\\' :: '\\' :: '.' :: '\\' :: rest => 4 + (takeUntilSep rest).length
  | '\\' :: '\\' :: rest =>
    let server := takeUntilSep rest
    if server.length = rest.length then 0
    else
      let share := takeUntilSep (rest.drop (server.length + 1))
      2 + server.length + (if 0 < share.length then 1 + share.length else 0)
  | c :: ':' :: _ => if c.isAlpha then 2 else 0
  | _ => 0

/-- The Windows path-prefix component of a path (empty when none). -/
def windowsPrefixStr (p : String) : String :=
  (p.toList.take (windowsPrefixLen p.toList)).asString

/-- Whether a path begins with a Windows path prefix; on Windows a path
is absolute or prefix-carrying exactly in this case, the case where
`Path::push` discards the base entirely. -/
def isWindowsPrefixed (p : String) : Bool :=
  0 < windowsPrefixLen p.toList

/-- Whether a path has a root: a separator immediately follows its
(possibly empty) prefix. -/
def hasWindowsRoot (p : String) : Bool :=
  match p.toList.drop (windowsPrefixLen p.toList) with
  | c :: _ => isSep c
  | [] => false

/-- Whether a path is exactly a disk prefix such as `C:`, the one case
where `Path::push` inserts no separator before a relative component. -/
def isDriveOnly (p : String) : Bool :=
  match p.toList with
  | [c, ':'] => c.isAlpha
  | _ => false

/-- Whether a path begins with the verbatim marker `\\?\`. -/
def isVerbatimPrefixed (p : String) : Bool :=
  match p.toList with
  | '\\' :: '\\' :: '?' :: '\\' :: _ => true
  | _ => false

/-- Split a char list at separators; runs of separators give empty
groups. -/
def splitOnSep : List Char → List (List Char)
  | [] => [[]]
  | c :: rest =>
    if isSep c then [] :: splitOnSep rest
    else
      match splitOnSep rest with
      | [] => [[c]]
      | g :: gs => (c :: g) :: gs

/-- The components of a prefix-free path as `Path::components` yields
them, separator runs and `.` references dropped; `..` components are
kept. -/
def pathComponents (p : String) : List (List Char) :=
  (splitOnSep p.toList).filter (fun g => !g.isEmpty && g != ['.'])

/-- Remove the last backslash-delimited component of a buffer together
with its preceding backslash, never shortening the buffer below its first
`pfxLen` characters. -/
def dropLastComponent (pfxLen : Nat) (buf : List Char) : List Char :=
  let revTail := (buf.drop pfxLen).reverse
  let after := takeUntilBackslash revTail
  let rem :=
    match revTail.drop after.length with
    | '\\' :: r => r
    | r => r
  buf.take pfxLen ++ rem.reverse

/-- Joining a non-empty, prefix-free component onto a base carrying a
verbatim prefix, per the documented contract of `PathBuf::push`: the new
path keeps backslash separators and normalizes `.` and `..` references; a
rooted component first truncates the base to its prefix. -/
def verbatimJoin (base rel : String) : String :=
  let pfx := windowsPrefixLen base.toList
  let start : List Char :=
    if hasWindowsRoot rel then base.toList.take pfx else base.toList
  ((pathComponents rel).foldl
    (fun buf comp =>
      if comp = ['.', '.'] then dropLastComponent pfx buf
      else buf ++ '\\' :: comp)
    start).asString

/-- Model of Rust `std::path::Path::join` (`PathBuf::push`) on Windows,
following its documented contract, with the cases in the order of the
source of `push`: a component carrying its own path prefix replaces the
base entirely; a non-empty component joined onto a base with a verbatim
prefix is normalized by `verbatimJoin`; a rooted but prefix-free
component (leading separator, e.g. `\windows` or `/etc/passwd`) replaces
everything except the base's prefix; otherwise the component is appended,
with a backslash inserted unless the base is empty, already ends in a
separator, or is a bare disk prefix such as `C:`. -/
def pathJoin (base rel : String) : String :=
  if isWindowsPrefixed rel then rel
  else if isVerbatimPrefixed base ∧ rel ≠ "" then verbatimJoin base rel
  else if hasWindowsRoot rel then windowsPrefixStr base ++ rel
  else if base = "" then rel
  else if strEndsWith base "\\" || strEndsWith base "/" then base ++ rel
  else if isDriveOnly base then base ++ rel
  else base ++ "\\" ++ rel

/-- The path handed to `canonicalize` by `get_absolute_pdf_path`
(linker.rs lines 78-82): the base-path template with `{{home_dir}}`
substituted, joined with `requested_path.substring(1, requested_path.len())`. -/
def joined_path (base_path home requested : String) : String :=
  pathJoin (strReplaceAll base_path "{{home_dir}}" home)
    (substring requested 1 requested.length)

/-- The environment of filesystem and process effects the program reads:
`dirs::home_dir()` (merged with its `to_str()` conversion into an optional
string), `std::fs::canonicalize` (`none` models an `Err`; by the contract
of `canonicalize`, a `some` result is an absolute, existing, canonical
path), and the success of the external `openwith` process spawned by
`open_file_with_dialog`. -/
structure FsEnv where
  home_dir : Option String
  canonicalize : String → Option String
  openSuccess : String → Bool

/-- Embeds `SystemConfig::get_absolute_pdf_path` (linker.rs lines 73-107):
substitute the home directory into the base-path template, join the
requested path with its first character stripped, canonicalize, and
remove a leading `\\?\` verbatim marker from the result. On any failure
only a diagnostic message is returned, never a partial path. -/
def SystemConfig.get_absolute_pdf_path (cfg : SystemConfig) (env : FsEnv)
    (requested_path : String) : Except String String :=
  match env.home_dir with
  | some home =>
    let file_path := joined_path cfg.base_path home requested_path
    match env.canonicalize file_path with
    | none => .error "Could not canonicalize"
    | some canon =>
      if strStartsWith canon "\\\\?\\" then .ok (replacen1 canon "\\\\?\\" "")
      else .ok canon
  | none => .error "did not find home dir"

/-- Outcome of `SystemConfig::run`: the `Result<(), String>` it returns,
plus the panic raised by the `assert_eq!` on line 134 when the resolved
path differs from the hard-coded development path. -/
inductive RunResult where
  | ok : RunResult
  | err : String → RunResult
  | panicked : RunResult
deriving DecidableEq, Repr

/-- Embeds `SystemConfig::run` (linker.rs lines 131-139): resolve the path,
`assert_eq!` it against the hard-coded string
`C:\Users\tim\OneDrive\OneDrive - epfl.ch\test.pdf` (a panic when they
differ), then invoke `open_file_with_dialog`, whose spawn failure or
non-zero exit are both `Err`. -/
def SystemConfig.run (cfg : SystemConfig) (env : FsEnv) (path : String) : RunResult :=
  match cfg.get_absolute_pdf_path env path with
  | .error e => .err e
  | .ok path_to_file =>
    if "C:\\Users\\tim\\OneDrive\\OneDrive - epfl.ch\\test.pdf" = path_to_file then
      if env.openSuccess path_to_file then .ok
      else .err "process failed"
    else .panicked

/-- The observable content of the `tiny_http::Response` built by
`ServerConfig::handle_request`: body, status code, and whether the
`Content-Type: text/html` header was added. -/
structure ResponseSpec where
  body : String
  status : Nat
  contentTypeHtml : Bool
deriving DecidableEq, Repr

/-- Embeds `ServerConfig::handle_request` (linker.rs lines 190-213), as the pure
response construction it performs before calling `request.respond`
(`Response::from_string` defaults to status 200). -/
def ServerConfig.handle_request (cfg : ServerConfig) (is_allowed : Bool)
    (did_succeed : Option Bool) : ResponseSpec :=
  if is_allowed then
    if did_succeed.getD false then
      if cfg.close_tab then
        { body := "<script>window.close()</script>tab should close now"
          status := 200, contentTypeHtml := true }
      else
        { body := "ok", status := 200, contentTypeHtml := false }
    else
      { body := "failed to start. check logs", status := 200, contentTypeHtml := false }
  else
    { body := "does not comply", status := 401, contentTypeHtml := false }

/-- What one request-handling pass produced: the authorization decision,
the `did_succeed` value passed to the response builder, and the response. -/
structure HandleTrace where
  allowed : Bool
  did_succeed : Option Bool
  response : ResponseSpec

/-- Embeds `Linker::allow_request` (linker.rs lines 236-238). -/
def Linker.allow_request (cfg : Linker) (request : Request) : Bool :=
  cfg.security.allow_request request

/-- Embeds `Linker::handle_request` (linker.rs lines 244-261): authorize, run the
open step only when allowed (reducing its `Result` to a boolean with
`is_ok`), and build the response. `none` models the handler panicking
(the `assert_eq!` inside `SystemConfig::run` unwinding), in which case no
response is produced. -/
def Linker.handle_request (cfg : Linker) (env : FsEnv) (request : Request) :
    Option HandleTrace :=
  let is_allowed := cfg.allow_request request
  let step : Option (Option Bool) :=
    if is_allowed then
      match cfg.system.run env request.url with
      | .ok => some (some true)
      | .err _ => some (some false)
      | .panicked => none
    else
      some none
  match step with
  | none => none
  | some did_succeed =>
    some { allowed := is_allowed, did_succeed := did_succeed
           response := cfg.server.handle_request is_allowed did_succeed }

/-- The outcome of `File::open` followed by `serde_yaml::from_reader`
inside `Linker::read_config`: the file may be missing, or it opens and
parsing yields either an error or a fully parsed `Linker`. -/
inductive ConfigFile where
  | missing : ConfigFile
  | opened : Except String Linker → ConfigFile

/-- Embeds `Linker::read_config` (linker.rs lines 217-234): a missing file or a
parse error falls back to `Linker::default()`; a successful parse is
returned as-is. -/
def Linker.read_config (file : ConfigFile) : Linker :=
  match file with
  | .missing => Linker.default
  | .opened (.error _) => Linker.default
  | .opened (.ok cfg) => cfg

/-- A concrete effect environment whose canonicalization succeeds on every
path and returns it with the Windows verbatim marker prepended. -/
def envVerbatim : FsEnv where
  home_dir := some "C:\\Users\\u"
  canonicalize := fun q => some ("\\\\?\\" ++ q)
  openSuccess := fun _ => true

/-- A concrete effect environment whose canonicalization fails on every
path (no file exists). -/
def envNoFile : FsEnv where
  home_dir := some "C:\\Users\\u"
  canonicalize := fun _ => none
  openSuccess := fun _ => false

/-! ## Helper lemmas about the pattern matcher -/

theorem foldl_or_eq_any (p : String) (l : List Regex) (b : Bool) :
    l.foldl (fun acc r => r.isMatch p || acc) b = (b || l.any (fun r => r.isMatch p)) := by
  induction l generalizing b with
  | nil => simp
  | cons r rs ih =>
    simp only [List.foldl_cons, List.any_cons, ih]
    cases b <;> cases r.isMatch p <;> simp

theorem matches_list_eq_any (l : List Regex) (p : String) :
    SecurityConfig.matches_list l p = l.any (fun r => r.isMatch p) := by
  simpa using foldl_or_eq_any p l false

theorem matches_list_true_iff (l : List Regex) (p : String) :
    SecurityConfig.matches_list l p = true ↔ ∃ r ∈ l, r.isMatch p = true := by
  rw [matches_list_eq_any]; exact List.any_eq_true

theorem matches_list_false_iff (l : List Regex) (p : String) :
    SecurityConfig.matches_list l p = false ↔ ∀ r ∈ l, r.isMatch p = false := by
  rw [matches_list_eq_any]
  simp [List.any_eq_true]

/-! ## C1: blacklist/whitelist pattern check -/

/-- **C1.** The pattern check rejects `url_path` iff it matches at least
one blacklist pattern and no whitelist pattern; a path matching a
blacklist pattern and some whitelist pattern is allowed; a path matching
no blacklist pattern is allowed whatever the whitelist holds; with empty
blacklist and whitelist every path passes. -/
theorem allow_black_and_white_list_spec (cfg : SecurityConfig) (req : Request) :
    (cfg.allow_black_and_white_list req = false ↔
      ((∃ r ∈ cfg.blacklist, r.isMatch req.url = true) ∧
        ∀ r ∈ cfg.whitelist, r.isMatch req.url = false))
    ∧ ((∃ r ∈ cfg.blacklist, r.isMatch req.url = true) →
        (∃ r ∈ cfg.whitelist, r.isMatch req.url = true) →
        cfg.allow_black_and_white_list req = true)
    ∧ ((∀ r ∈ cfg.blacklist, r.isMatch req.url = false) →
        cfg.allow_black_and_white_list req = true)
    ∧ (cfg.blacklist = [] → cfg.whitelist = [] →
        cfg.allow_black_and_white_list req = true) := by
  have hb := matches_list_true_iff cfg.blacklist req.url
  have hbf := matches_list_false_iff cfg.blacklist req.url
  have hw := matches_list_true_iff cfg.whitelist req.url
  have hwf := matches_list_false_iff cfg.whitelist req.url
  unfold SecurityConfig.allow_black_and_white_list SecurityConfig.matches_blacklist
    SecurityConfig.matches_whitelist
  cases hB : SecurityConfig.matches_list cfg.blacklist req.url <;>
    cases hW : SecurityConfig.matches_list cfg.whitelist req.url <;>
    simp_all

/-- Closed instance of `allow_black_and_white_list_spec`: with empty
blacklist and whitelist the pattern check allows the path. -/
theorem allow_black_and_white_list_spec_witness :
    SecurityConfig.allow_black_and_white_list ⟨true, [], []⟩ ⟨some ⟨true⟩, "/x.pdf"⟩ = true :=
  (allow_black_and_white_list_spec ⟨true, [], []⟩ ⟨some ⟨true⟩, "/x.pdf"⟩).2.2.2 rfl rfl

/-! ## C8: order-invariance of list matching -/

/-- **C8.** Matching against a pattern list is the logical OR of the
individual pattern matches, hence invariant under any permutation of the
list. -/
theorem matches_list_perm_invariant (p : String) (l l' : List Regex) (hperm : l.Perm l') :
    SecurityConfig.matches_list l p = l.any (fun r => r.isMatch p)
    ∧ SecurityConfig.matches_list l p = SecurityConfig.matches_list l' p := by
  refine ⟨matches_list_eq_any l p, ?_⟩
  rw [matches_list_eq_any, matches_list_eq_any]
  refine Bool.coe_iff_coe.mp ?_
  simp only [List.any_eq_true]
  exact ⟨fun ⟨r, hr, hm⟩ => ⟨r, hperm.mem_iff.mp hr, hm⟩,
    fun ⟨r, hr, hm⟩ => ⟨r, hperm.mem_iff.mpr hr, hm⟩⟩

/-- Closed instance of `matches_list_perm_invariant` on a two-element list
and its transposition. -/
theorem matches_list_perm_invariant_witness :
    SecurityConfig.matches_list [⟨fun s => s = "/a.pdf"⟩, ⟨fun s => s = "/b.pdf"⟩] "/b.pdf"
      = SecurityConfig.matches_list [⟨fun s => s = "/b.pdf"⟩, ⟨fun s => s = "/a.pdf"⟩] "/b.pdf" :=
  (matches_list_perm_invariant "/b.pdf" _ _ (List.Perm.swap _ _ [])).2

/-! ## C2: origin check and overall conjunction -/

/-- **C2.** The overall decision is the conjunction of the origin check
and the pattern check; with `force_loopback` set, a request whose remote
address is not loopback is rejected whatever the pattern lists hold; with
`force_loopback` unset the origin check always passes. -/
theorem allow_request_spec (cfg : SecurityConfig) (req : Request) :
    cfg.allow_request req
      = (cfg.allow_force_loopback req && cfg.allow_black_and_white_list req)
    ∧ (cfg.force_loopback = true →
        (∀ a, req.remote_addr = some a → a.isLoopback = false) →
        cfg.allow_request req = false)
    ∧ (cfg.force_loopback = false → cfg.allow_force_loopback req = true) := by
  refine ⟨?_, ?_, ?_⟩
  · unfold SecurityConfig.allow_request
    cases cfg.allow_force_loopback req <;> cases cfg.allow_black_and_white_list req <;> rfl
  · intro hfl hnl
    have h1 : cfg.allow_force_loopback req = false := by
      unfold SecurityConfig.allow_force_loopback
      rw [hfl]
      cases hra : req.remote_addr with
      | none => rfl
      | some a => simp [hnl a hra]
    unfold SecurityConfig.allow_request
    rw [h1]
    rfl
  · intro hfl
    unfold SecurityConfig.allow_force_loopback
    rw [hfl]
    rfl

/-- Closed instance of `allow_request_spec`: `force_loopback` set and a
non-loopback remote is rejected even with empty pattern lists. -/
theorem allow_request_spec_witness :
    SecurityConfig.allow_request ⟨true, [], []⟩ ⟨some ⟨false⟩, "/x.pdf"⟩ = false :=
  (allow_request_spec ⟨true, [], []⟩ ⟨some ⟨false⟩, "/x.pdf"⟩).2.1 rfl
    (fun a ha => by cases ha; rfl)

/-! ## C9: requests with unknown remote address -/

/-- **C9.** When the remote address cannot be determined and
`force_loopback` is set, the origin check returns `false` and the request
is rejected. -/
theorem unknown_origin_rejected (cfg : SecurityConfig) (req : Request)
    (hfl : cfg.force_loopback = true) (hra : req.remote_addr = none) :
    cfg.allow_force_loopback req = false ∧ cfg.allow_request req = false := by
  have h1 : cfg.allow_force_loopback req = false := by
    unfold SecurityConfig.allow_force_loopback
    rw [hfl, hra]
    rfl
  refine ⟨h1, ?_⟩
  unfold SecurityConfig.allow_request
  rw [h1]
  rfl

/-- Closed instance of `unknown_origin_rejected`. -/
theorem unknown_origin_rejected_witness :
    SecurityConfig.allow_request ⟨true, [], []⟩ ⟨none, "/x.pdf"⟩ = false :=
  (unknown_origin_rejected ⟨true, [], []⟩ ⟨none, "/x.pdf"⟩ rfl rfl).2

/-! ## C4: response decision table -/

/-- **C4.** The response built by `handle_request` matches the decision
table: disallowed gives body "does not comply" with status 401; allowed
with `Some(true)` gives the tab-closing HTML body with status 200 and the
`text/html` content type when `close_tab` is set, body "ok" with status
200 otherwise; allowed with `Some(false)` or `None` gives body "failed to
start. check logs" with status 200. -/
theorem handle_request_decision_table (cfg : ServerConfig) (s : Option Bool) :
    cfg.handle_request false s = ⟨"does not comply", 401, false⟩
    ∧ cfg.handle_request true (some true) =
        (if cfg.close_tab then
          ⟨"<script>window.close()</script>tab should close now", 200, true⟩
        else ⟨"ok", 200, false⟩)
    ∧ cfg.handle_request true (some false) = ⟨"failed to start. check logs", 200, false⟩
    ∧ cfg.handle_request true none = ⟨"failed to start. check logs", 200, false⟩ := by
  refine ⟨rfl, ?_, rfl, rfl⟩
  unfold ServerConfig.handle_request
  cases cfg.close_tab <;> rfl

/-! ## C7: configuration loading -/

/-- **C7.** Loading the configuration yields either the fully parsed
configuration or, on a missing file or any parse failure, exactly the
compiled-in default; there is no partial state and no process failure
(the loader is total). -/
theorem read_config_defaults_or_parsed (file : ConfigFile) :
    Linker.read_config .missing = Linker.default
    ∧ (∀ e, Linker.read_config (.opened (.error e)) = Linker.default)
    ∧ (∀ cfg, Linker.read_config (.opened (.ok cfg)) = cfg)
    ∧ (Linker.read_config file = Linker.default ∨
        ∃ cfg, file = .opened (.ok cfg) ∧ Linker.read_config file = cfg) := by
  refine ⟨rfl, fun _ => rfl, fun _ => rfl, ?_⟩
  cases file with
  | missing => exact Or.inl rfl
  | opened r =>
    cases r with
    | error e => exact Or.inl rfl
    | ok cfg => exact Or.inr ⟨cfg, rfl, rfl⟩

/-! ## C10: unconditional first-character strip before the join -/

/-- **C10.** Path resolution removes the first character of a non-empty
`requested_path` unconditionally before joining it onto the substituted
base path — even when that character is not a separator — so only inputs
beginning with exactly one separator are joined with their intended
remainder intact. -/
theorem substring_strips_first_char (base home s : String) (hne : s ≠ "") :
    joined_path base home s
      = pathJoin (strReplaceAll base "{{home_dir}}" home) ((s.toList.drop 1).asString)
    ∧ (∀ c rest, s.toList = c :: rest → substring s 1 s.length = rest.asString)
    ∧ (∀ rest, s.toList = '/' :: rest → substring s 1 s.length = rest.asString) := by
  have hlen : s.length = s.toList.length := rfl
  have key : substring s 1 s.length = (s.toList.drop 1).asString := by
    unfold substring
    congr 1
    apply List.take_of_length_le
    rw [List.length_drop, hlen]
  refine ⟨?_, ?_, ?_⟩
  · unfold joined_path
    rw [key]
  · intro c rest hcons
    rw [key, hcons]
    rfl
  · intro rest hcons
    rw [key, hcons]
    rfl

/-- Closed instance of `substring_strips_first_char`: the URL path
"/a.pdf" is joined as "a.pdf". -/
theorem substring_strips_first_char_witness :
    substring "/a.pdf" 1 "/a.pdf".length = ("a.pdf".toList).asString :=
  (substring_strips_first_char "{{home_dir}}\\d" "C:\\u" "/a.pdf" (by decide)).2.2
    "a.pdf".toList rfl

/-! ## C3: the leftover assertion panics the request handler -/

/-- **C3** is violated by the code: the `assert_eq!` left on linker.rs
line 134 compares every resolved path against the hard-coded development
path `C:\Users\tim\OneDrive\OneDrive - epfl.ch\test.pdf` and panics
whenever they differ, so an allowed request (here `/test.pdf` for a user
whose home directory is `C:\Users\bob`) makes `SystemConfig::run` panic
and `Linker::handle_request` terminate without producing a response,
unwinding the single-threaded serve loop instead of reporting the failure
through the response body. -/
theorem run_panics_on_non_dev_path :
    SystemConfig.run SystemConfig.default
        ⟨some "C:\\Users\\bob", fun q => some q, fun _ => true⟩ "/test.pdf"
      = RunResult.panicked
    ∧ Linker.handle_request Linker.default
        ⟨some "C:\\Users\\bob", fun q => some q, fun _ => true⟩
        ⟨some ⟨true⟩, "/test.pdf"⟩
      = none := by
  exact ⟨rfl, rfl⟩

/-! ## C5: error and success characterization of path resolution -/

/-- **C6.** Whenever `Linker::handle_request` produces a response, the
`did_succeed` value passed to the response builder is `None` iff the
request was disallowed, and a `Some` value is passed exactly when the
request was allowed; for a disallowed request the open step is never
attempted: the outcome is independent of the whole effect environment. -/
theorem did_succeed_none_iff_disallowed (cfg : Linker) (env env' : FsEnv) (req : Request) :
    (∀ t, cfg.handle_request env req = some t →
      (t.did_succeed = none ↔ t.allowed = false)
      ∧ (t.allowed = true → ∃ b, t.did_succeed = some b)
      ∧ t.allowed = cfg.allow_request req)
    ∧ (cfg.allow_request req = false →
        cfg.handle_request env req = cfg.handle_request env' req) := by
  constructor
  · intro t ht
    simp only [Linker.handle_request] at ht
    cases hall : cfg.allow_request req with
    | false =>
      rw [hall] at ht
      simp only [Bool.false_eq_true, if_false, Option.some.injEq] at ht
      subst ht
      simp [hall]
    | true =>
      rw [hall] at ht
      cases hrun : cfg.system.run env req.url with
      | ok =>
        rw [hrun] at ht
        simp only [if_true, Option.some.injEq] at ht
        subst ht
        simp [hall]
      | err e =>
        rw [hrun] at ht
        simp only [if_true, Option.some.injEq] at ht
        subst ht
        simp [hall]
      | panicked =>
        rw [hrun] at ht
        simp at ht
  · intro hall
    simp [Linker.handle_request, hall]

/-- Closed instance of `did_succeed_none_iff_disallowed`: a non-loopback
request under the default configuration is disallowed, is answered with
`did_succeed = none`, and its handling is unaffected by swapping the
whole filesystem/process environment. -/
theorem did_succeed_none_iff_disallowed_witness :
    ((none : Option Bool) = none ↔ false = false)
    ∧ Linker.handle_request Linker.default envVerbatim ⟨some ⟨false⟩, "/x.pdf"⟩
        = Linker.handle_request Linker.default envNoFile ⟨some ⟨false⟩, "/x.pdf"⟩ :=
  ⟨((did_succeed_none_iff_disallowed Linker.default envVerbatim envNoFile
      ⟨some ⟨false⟩, "/x.pdf"⟩).1
      ⟨false, none, ⟨"does not comply", 401, false⟩⟩ rfl).1,
    (did_succeed_none_iff_disallowed Linker.default envVerbatim envNoFile
      ⟨some ⟨false⟩, "/x.pdf"⟩).2 rfl⟩

end XodoLinker
